import Mathlib

/-!
Shallow embedding of the two instructional notebooks of the repository
(`02-python-data-types/Python-data-types-and-methods-2.ipynb` and
`13-geocoding/APIs and geocoding.ipynb`): the JSON data model of the parsed
API responses, the URL preparation performed by the HTTP library on the
forward-geocoding request, the container operations the tutorial cells
demonstrate, and an effect-trace model of every code cell of both notebooks.
-/

namespace Notebooks

/-- JSON values, the shape of every parsed API response body in the
geocoding notebook (floating-point draws are carried as opaque `Int`
stand-ins; no arithmetic on them is ever claimed). -/
inductive Json where
  | null
  | bool (b : Bool)
  | num (n : Int)
  | str (s : String)
  | arr (elems : List Json)
  | obj (fields : List (String × Json))

/-- Key lookup in a JSON object field list, first match wins. -/
def lookupField : List (String × Json) → String → Option Json
  | [], _ => none
  | (k, v) :: rest, key => if k = key then some v else lookupField rest key

/-- Python subscript `data[key]` on a parsed JSON value: `some` on a hit,
`none` standing for the raised `KeyError` (or `TypeError` on a non-object)
branch. -/
def Json.lookupKey : Json → String → Option Json
  | .obj fields, key => lookupField fields key
  | _, _ => none

/-! URL preparation.  Cell 2 of the geocoding notebook builds
`url = requests.Request('GET', endpoint+address+'.json', params=params).prepare().url`.
The HTTP library url-encodes the query parameters (`urlencode` with
`quote_plus`, empty safe set) and percent-quotes the assembled URI
(`requote_uri`, safe set `"!#$%&'()*+,/:;=?@[]~"` on top of the always-safe
alphanumerics and `-._~`).  We embed exactly that pipeline. -/

/-- Characters never percent-quoted by the quoting routine: ASCII
alphanumerics and `-._~`. -/
def alwaysSafe (c : Char) : Bool :=
  (c.toNat ≥ 48 && c.toNat ≤ 57) || (c.toNat ≥ 65 && c.toNat ≤ 90) ||
  (c.toNat ≥ 97 && c.toNat ≤ 122) ||
  c = '-' || c = '_' || c = '.' || c = '~'

/-- The extra safe set of `requote_uri`: the characters of
`"!#$%&'()*+,/:;=?@[]~"`, given by ASCII code (code 39 is the apostrophe). -/
def requoteSafe : List Char :=
  [Char.ofNat 33, Char.ofNat 35, Char.ofNat 36, Char.ofNat 37, Char.ofNat 38,
   Char.ofNat 39, Char.ofNat 40, Char.ofNat 41, Char.ofNat 42, Char.ofNat 43,
   Char.ofNat 44, Char.ofNat 47, Char.ofNat 58, Char.ofNat 59, Char.ofNat 61,
   Char.ofNat 63, Char.ofNat 64, Char.ofNat 91, Char.ofNat 93, Char.ofNat 126]

/-- Upper-case hexadecimal digit, as produced by the quoting routine. -/
def hexDigit (n : Nat) : Char :=
  if n < 10 then Char.ofNat (48 + n) else Char.ofNat (55 + n)

/-- Percent-quote one character against a safe set. -/
def quoteChar (safe : List Char) (c : Char) : String :=
  if alwaysSafe c || safe.contains c then String.singleton c
  else "%" ++ String.singleton (hexDigit (c.toNat / 16)) ++
       String.singleton (hexDigit (c.toNat % 16))

/-- Percent-quote a string against a safe set. -/
def quoteWith (safe : List Char) (s : String) : String :=
  String.join (s.toList.map (quoteChar safe))

/-- Re-quoting of a full URI as done on the prepared request (the input
contains no pre-existing percent escapes here). -/
def requoteUri (s : String) : String :=
  quoteWith requoteSafe s

/-- Query-string quoting of one key or value (`quote_plus` with empty safe
set): space becomes `+`, other non-always-safe characters are
percent-quoted. -/
def quotePlus (s : String) : String :=
  String.join (s.toList.map (fun c =>
    if c = ' ' then "+" else quoteChar [] c))

/-- Encoding of the query parameters (`urlencode`): `k=v` pairs joined by
`&`, keys and values quoted, in the given (insertion) order. -/
def urlencodeParams (ps : List (String × String)) : String :=
  String.intercalate "&" (ps.map (fun p => quotePlus p.1 ++ "=" ++ quotePlus p.2))

/-- The URL of a prepared GET request with query parameters, for a base URL
that has no query or fragment of its own: the encoded parameters are
appended after `?` and the whole URI is re-quoted. -/
def prepareUrl (base : String) (ps : List (String × String)) : String :=
  requoteUri (base ++ "?" ++ urlencodeParams ps)

/-! Literals of cell 2 of the geocoding notebook. -/

def endpoint : String := "https://api.mapbox.com/geocoding/v5/mapbox.places/"

def address : String := "Wurster Hall"

def mapboxToken : String :=
  "pk.eyJ1IjoiY3AyNTVkZW1vIiwiYSI6ImRPcTlnTUEifQ.3C0d0Nk_rcwV-8JF29PU-w"

/-- The `params` dict of cell 2, in insertion order (`limit` first); the
integer value 1 is stringified by the encoder. -/
def params : List (String × String) :=
  [("limit", "1"), ("access_token", mapboxToken)]

/-- The prepared URL `url` bound by cell 2. -/
def url : String := prepareUrl (endpoint ++ address ++ ".json") params

/-! Coordinate extraction, cell 5 of the geocoding notebook:
`for r in data['features']: coords = r['geometry']['coordinates']; print(coords)`. -/

/-- The value printed for one feature `r`: `r['geometry']['coordinates']`. -/
def geomCoords (r : Json) : Option Json :=
  (r.lookupKey "geometry").bind (fun g => g.lookupKey "coordinates")

/-- The loop body of cell 5 over the feature list: the printed coordinate
values in list order, `none` when some subscript raises. -/
def printCoordsLoop : List Json → Option (List Json)
  | [] => some []
  | r :: rest => do
      let c ← geomCoords r
      let cs ← printCoordsLoop rest
      pure (c :: cs)

/-- The whole of cell 5: iterate over `data['features']` (which must be
present and a list, else the cell raises, embedded as `none`). -/
def cell5Output (data : Json) : Option (List Json) :=
  match data.lookupKey "features" with
  | some (.arr rs) => printCoordsLoop rs
  | _ => none

/-! Effect-trace model of the code cells.  Every code cell of both
notebooks is straight-line Python; we record, in program order, the
observable effects of running it: console prints, rich displays of a
cell-final expression, top-level notebook variable (re)bindings or in-place
mutations of bound objects, mutations of the process environment map
`os.environ`, outgoing HTTP requests (direct or through the vendor SDK),
draws from the numpy random source, and raised exceptions.  The constructors
`spawnThread` and `cancel` exist so that their absence from every trace is a
statement about the source, which contains no threading or cancellation
construct. -/

inductive Effect where
  | print
  | display
  | bindVar (name : String)
  | setEnv (key : String)
  | request (method : String)
  | randomDraw
  | raiseError (kind : String)
  | spawnThread
  | cancel
deriving Repr, DecidableEq

/-! Code cells of `02-python-data-types/Python-data-types-and-methods-2.ipynb`,
numbered by their position among all cells of the notebook. -/

/-- `d = ('a','b','c'); print(d)` -/
def nb02c3 : List Effect := [.bindVar "d", .print]
/-- `d[2] = 'z'` raises TypeError: tuples are immutable. -/
def nb02c4 : List Effect := [.raiseError "TypeError"]
/-- `d.remove['c']` raises TypeError (subscripting a method). -/
def nb02c6 : List Effect := [.raiseError "TypeError"]
/-- `print(d); e = list(d); e.remove('c'); print(e)` -/
def nb02c8 : List Effect := [.print, .bindVar "e", .bindVar "e", .print]
/-- `f = tuple(e); print(f)` -/
def nb02c10 : List Effect := [.bindVar "f", .print]
/-- `x = [1,2,3]; y = [4,5,6]; zipped = zip(x,y); print(list(zipped))` -/
def nb02c12 : List Effect := [.bindVar "x", .bindVar "y", .bindVar "zipped", .print]
/-- `newdict = \x7b\x7d` -/
def nb02c16 : List Effect := [.bindVar "newdict"]
/-- `newdict = dict()` -/
def nb02c17 : List Effect := [.bindVar "newdict"]
/-- `antonyms = ...; print(antonyms)` -/
def nb02c19 : List Effect := [.bindVar "antonyms", .print]
/-- `newdict.update(...)` in-place mutation of the bound dict. -/
def nb02c21 : List Effect := [.bindVar "newdict"]
/-- `newdict["next"] = "thing"` -/
def nb02c22 : List Effect := [.bindVar "newdict"]
/-- bare `newdict` display. -/
def nb02c23 : List Effect := [.display]
/-- `Keys = ...; Values = ...; antonyms2 = dict(zip(Keys,Values)); print(antonyms2)` -/
def nb02c25 : List Effect := [.bindVar "Keys", .bindVar "Values", .bindVar "antonyms2", .print]
/-- `dict.` raises SyntaxError. -/
def nb02c27 : List Effect := [.raiseError "SyntaxError"]
/-- `antonyms['hot']` display. -/
def nb02c29 : List Effect := [.display]
/-- `antonyms.get('hot')` display. -/
def nb02c30 : List Effect := [.display]
/-- `len(antonyms)` display. -/
def nb02c32 : List Effect := [.display]
/-- `print(antonyms.keys())` -/
def nb02c34 : List Effect := [.print]
/-- `print(antonyms.values())` -/
def nb02c36 : List Effect := [.print]
/-- `antonyms['fast'] = 'gorge'; antonyms` -/
def nb02c38 : List Effect := [.bindVar "antonyms", .display]
/-- `antonyms = ...; synonyms = ...; antonyms+synonyms` raises TypeError. -/
def nb02c40 : List Effect :=
  [.bindVar "antonyms", .bindVar "synonyms", .raiseError "TypeError"]
/-- `newdict = \x7b\x7d; newdict.update(antonyms); newdict.update(synonyms); newdict` -/
def nb02c42 : List Effect :=
  [.bindVar "newdict", .bindVar "newdict", .bindVar "newdict", .display]
/-- rebinding of `antonyms`, `antonyms2` and the three-step merge into
`newdict`, then display. -/
def nb02c44 : List Effect :=
  [.bindVar "antonyms", .bindVar "antonyms2", .bindVar "newdict",
   .bindVar "newdict", .bindVar "newdict", .display]
/-- `del newdict['red']; newdict` -/
def nb02c46 : List Effect := [.bindVar "newdict", .display]
/-- `cityPlanners_dict = ...` -/
def nb02c48 : List Effect := [.bindVar "cityPlanners_dict"]
/-- `cityPlanners_dict = ...` with the books list. -/
def nb02c50 : List Effect := [.bindVar "cityPlanners_dict"]
/-- `print(cityPlanners_dict)` -/
def nb02c52 : List Effect := [.print]
/-- `print(....keys(),'\n'); print(....values())` -/
def nb02c54 : List Effect := [.print, .print]
/-- `cityPlanners_dict["name"]` display. -/
def nb02c56 : List Effect := [.display]
/-- `cityPlanners_dict["books"][-1]` display. -/
def nb02c58 : List Effect := [.display]
/-- `cityPlanners_dict["place of birth"] = "San Francisco"; print(...)` -/
def nb02c62 : List Effect := [.bindVar "cityPlanners_dict", .print]
/-- `cityPlanners_dict["gender"] = "Female"; print(...)` -/
def nb02c64 : List Effect := [.bindVar "cityPlanners_dict", .print]
/-- `race = ...` then a loop printing the four entries. -/
def nb02c66 : List Effect := [.bindVar "race", .print, .print, .print, .print]
/-- `race = ...` then a loop rewriting the four entries, then print. -/
def nb02c68 : List Effect :=
  [.bindVar "race", .bindVar "race", .bindVar "race", .bindVar "race",
   .bindVar "race", .print]
/-- `countries = ...; race = ...` and four membership prints. -/
def nb02c70 : List Effect :=
  [.bindVar "countries", .bindVar "race", .print, .print, .print, .print]
/-- `import numpy as np` -/
def nb02c73 : List Effect := [.bindVar "np"]
/-- `x = list(range(1,6)); y = np.array(x)` -/
def nb02c75 : List Effect := [.bindVar "x", .bindVar "y"]
/-- `print(x)` -/
def nb02c76 : List Effect := [.print]
/-- `print(y)` -/
def nb02c77 : List Effect := [.print]
/-- `type(x)` display. -/
def nb02c78 : List Effect := [.display]
/-- `type(y)` display. -/
def nb02c79 : List Effect := [.display]
/-- `sum(x)` display. -/
def nb02c81 : List Effect := [.display]
/-- `sum(y)` display. -/
def nb02c82 : List Effect := [.display]
/-- `min(x)` display. -/
def nb02c83 : List Effect := [.display]
/-- `min(y)` display. -/
def nb02c84 : List Effect := [.display]
/-- `mean(x)` raises NameError. -/
def nb02c86 : List Effect := [.raiseError "NameError"]
/-- `np.mean(x)` display. -/
def nb02c88 : List Effect := [.display]
/-- `np.mean(y)` display. -/
def nb02c89 : List Effect := [.display]
/-- `np.median(x)` display. -/
def nb02c90 : List Effect := [.display]
/-- `np.median(y)` display. -/
def nb02c91 : List Effect := [.display]
/-- `np.size(x)` display. -/
def nb02c92 : List Effect := [.display]
/-- `np.size(y)` display. -/
def nb02c93 : List Effect := [.display]
/-- `x / 10` on the list raises TypeError. -/
def nb02c94 : List Effect := [.raiseError "TypeError"]
/-- `y / 10` display. -/
def nb02c95 : List Effect := [.display]
/-- `xscaled = [ z/10 for z in x]; xscaled` -/
def nb02c97 : List Effect := [.bindVar "xscaled", .display]
/-- `Z = np.zeros(10); print(Z)` -/
def nb02c99 : List Effect := [.bindVar "Z", .print]
/-- `Z[4] = 1; print(Z)` -/
def nb02c101 : List Effect := [.bindVar "Z", .print]
/-- `Z = np.arange(9).reshape(3,3); print(Z)` -/
def nb02c103 : List Effect := [.bindVar "Z", .print]
/-- `Z[0,2] = 9; Z` -/
def nb02c105 : List Effect := [.bindVar "Z", .display]
/-- `Z.shape` display. -/
def nb02c106 : List Effect := [.display]
/-- `Z.size` display. -/
def nb02c107 : List Effect := [.display]
/-- `Z+Z` display. -/
def nb02c109 : List Effect := [.display]
/-- `Z*Z` display. -/
def nb02c111 : List Effect := [.display]
/-- `Z = np.random.random((10,10)); Zmin, Zmax = Z.min(), Z.max(); print(Zmin, Zmax)` -/
def nb02c113 : List Effect :=
  [.randomDraw, .bindVar "Z", .bindVar "Zmin", .bindVar "Zmax", .print]
/-- `Z.mean()` display. -/
def nb02c115 : List Effect := [.display]
/-- `Z.median()` raises AttributeError. -/
def nb02c116 : List Effect := [.raiseError "AttributeError"]
/-- `np.median(Z)` display. -/
def nb02c117 : List Effect := [.display]
/-- `Z.percentile(.75)` raises AttributeError. -/
def nb02c118 : List Effect := [.raiseError "AttributeError"]
/-- `np.percentile(Z,.75)` display. -/
def nb02c119 : List Effect := [.display]
/-- `import matplotlib.pyplot as plt` and the inline magic. -/
def nb02c121 : List Effect := [.bindVar "plt"]
/-- `x=range(100); y=np.sin(x); plt.plot(x*y)` inline figure display. -/
def nb02c122 : List Effect := [.bindVar "x", .bindVar "y", .display]
/-- `Z = np.arange(9).reshape(3,3); print(Z)` -/
def nb02c125 : List Effect := [.bindVar "Z", .print]
/-- `Z.dot(Z)` display. -/
def nb02c126 : List Effect := [.display]
/-- `np.transpose(Z)` display. -/
def nb02c128 : List Effect := [.display]
/-- `np.eye(3,3)` display. -/
def nb02c130 : List Effect := [.display]
/-- trailing empty code cell. -/
def nb02c132 : List Effect := []

/-! Code cells of `13-geocoding/APIs and geocoding.ipynb`. -/

/-- imports and `pp = pprint.PrettyPrinter()`. -/
def nb13c1 : List Effect :=
  [.bindVar "json", .bindVar "requests", .bindVar "pprint", .bindVar "pp"]
/-- `endpoint = ...; address = ...; params = ...; url = ....prepare().url; print(url)` -/
def nb13c2 : List Effect :=
  [.bindVar "endpoint", .bindVar "address", .bindVar "params", .bindVar "url", .print]
/-- `response = requests.get(url); results = response.text; data = json.loads(results); print(data)` -/
def nb13c3 : List Effect :=
  [.request "GET", .bindVar "response", .bindVar "results", .bindVar "data", .print]
/-- `pp.pprint(data)` -/
def nb13c4 : List Effect := [.print]
/-- the coordinate-extraction loop over `data['features']` (one feature,
since the request used `limit=1`). -/
def nb13c5 : List Effect := [.print]
/-- cell containing only the commented-out pip install. -/
def nb13c7 : List Effect := []
/-- `from mapbox import Geocoder; import os` -/
def nb13c10 : List Effect := [.bindVar "Geocoder", .bindVar "os"]
/-- `os.environ['MAPBOX_ACCESS_TOKEN'] = "pk...."` mutates the process
environment map. -/
def nb13c12 : List Effect := [.setEnv "MAPBOX_ACCESS_TOKEN"]
/-- `os.environ['MAPBOX_ACCESS_TOKEN']` display (a read, not a mutation). -/
def nb13c13 : List Effect := [.display]
/-- `geocoder = Geocoder(access_token = os.environ['MAPBOX_ACCESS_TOKEN'])` -/
def nb13c15 : List Effect := [.bindVar "geocoder"]
/-- `response = geocoder.forward('2700 Bancroft Way...', limit=1)` one SDK request. -/
def nb13c16 : List Effect := [.request "SDK", .bindVar "response"]
/-- `results = response.text` -/
def nb13c17 : List Effect := [.bindVar "results"]
/-- `data = json.loads(results); pp.pprint(data)` -/
def nb13c18 : List Effect := [.bindVar "data", .print]
/-- `response = geocoder.forward('120 East 13th Street...', limit = 1)` plus
bindings and two prints. -/
def nb13c20 : List Effect :=
  [.request "SDK", .bindVar "response", .bindVar "results", .bindVar "first",
   .print, .print]
/-- empty your-turn cell. -/
def nb13c22 : List Effect := []
/-- `response = geocoder.reverse(lon=-73.988893, lat=40.733003); features = ...; features` -/
def nb13c24 : List Effect := [.request "SDK", .bindVar "response", .bindVar "features", .display]
/-- the place-name loop over the seven returned features. -/
def nb13c25 : List Effect := List.replicate 7 .print
/-- `response = geocoder.reverse(..., types=['address']); features = ...; features[0]['place_name']` -/
def nb13c27 : List Effect := [.request "SDK", .bindVar "response", .bindVar "features", .display]
/-- empty your-turn cell. -/
def nb13c29 : List Effect := []
/-- empty your-turn cell. -/
def nb13c30 : List Effect := []
/-- `import mapbox; help(mapbox.Directions)` -/
def nb13c32 : List Effect := [.bindVar "mapbox", .print]
/-- `from mapbox import Directions` -/
def nb13c33 : List Effect := [.bindVar "Directions"]
/-- `service = Directions()` -/
def nb13c34 : List Effect := [.bindVar "service"]
/-- the `origin` and `destination` GeoJSON literals. -/
def nb13c35 : List Effect := [.bindVar "origin", .bindVar "destination"]
/-- `response = service.directions([origin, destination],'mapbox/driving')` one SDK request. -/
def nb13c36 : List Effect := [.request "SDK", .bindVar "response"]
/-- `driving_routes = response.geojson()` -/
def nb13c37 : List Effect := [.bindVar "driving_routes"]
/-- bare `driving_routes` display. -/
def nb13c38 : List Effect := [.display]
/-- empty your-turn cell. -/
def nb13c41 : List Effect := []
/-- empty cell before the census example. -/
def nb13c43 : List Effect := []
/-- imports, the `apikey`, `request_url`, `request_obj` literals, and
`response = requests.post(request_url, auth=HTTPBasicAuth(apikey, None), json=request_obj)`. -/
def nb13c44 : List Effect :=
  [.bindVar "requests", .bindVar "HTTPBasicAuth", .bindVar "apikey",
   .bindVar "request_url", .bindVar "request_obj", .request "POST",
   .bindVar "response"]
/-- bare `response` display (`<Response [503]>` in the stored output). -/
def nb13c45 : List Effect := [.display]
/-- `url = 'https://geo.fcc.gov/api/census/block/find?...'; response = requests.get(url); data = response.json(); data` -/
def nb13c47 : List Effect :=
  [.bindVar "url", .request "GET", .bindVar "response", .bindVar "data", .display]
/-- `data['Block']['FIPS']` display. -/
def nb13c48 : List Effect := [.display]
/-- trailing empty your-turn cell. -/
def nb13c50 : List Effect := []

/-- Every code cell of both notebooks, in notebook order. -/
def allCells : List (List Effect) :=
  [nb02c3, nb02c4, nb02c6, nb02c8, nb02c10, nb02c12, nb02c16, nb02c17,
   nb02c19, nb02c21, nb02c22, nb02c23, nb02c25, nb02c27, nb02c29, nb02c30,
   nb02c32, nb02c34, nb02c36, nb02c38, nb02c40, nb02c42, nb02c44, nb02c46,
   nb02c48, nb02c50, nb02c52, nb02c54, nb02c56, nb02c58, nb02c62, nb02c64,
   nb02c66, nb02c68, nb02c70, nb02c73, nb02c75, nb02c76, nb02c77, nb02c78,
   nb02c79, nb02c81, nb02c82, nb02c83, nb02c84, nb02c86, nb02c88, nb02c89,
   nb02c90, nb02c91, nb02c92, nb02c93, nb02c94, nb02c95, nb02c97, nb02c99,
   nb02c101, nb02c103, nb02c105, nb02c106, nb02c107, nb02c109, nb02c111,
   nb02c113, nb02c115, nb02c116, nb02c117, nb02c118, nb02c119, nb02c121,
   nb02c122, nb02c125, nb02c126, nb02c128, nb02c130, nb02c132,
   nb13c1, nb13c2, nb13c3, nb13c4, nb13c5, nb13c7, nb13c10, nb13c12,
   nb13c13, nb13c15, nb13c16, nb13c17, nb13c18, nb13c20, nb13c22, nb13c24,
   nb13c25, nb13c27, nb13c29, nb13c30, nb13c32, nb13c33, nb13c34, nb13c35,
   nb13c36, nb13c37, nb13c38, nb13c41, nb13c43, nb13c44, nb13c45, nb13c47,
   nb13c48, nb13c50]

/-- Does an effect mutate state outside the notebook's own top-level
variable bindings?  Only the `os.environ` mutation does: prints and
displays are console output, `bindVar` is notebook state, an outgoing
request and a random draw read the outside world but mutate no state the
repository owns, and a raised exception only aborts the cell. -/
def mutatesExternalState : Effect → Bool
  | .setEnv _ => true
  | _ => false

/-- Is an effect the issuing of one HTTP request (direct or via the SDK)? -/
def isRequest : Effect → Bool
  | .request _ => true
  | _ => false

/-- Number of HTTP requests a cell issues. -/
def requestCount (c : List Effect) : Nat := (c.filter isRequest).length

/-! The census POST cell (cell 44 of the geocoding notebook) and the
display cell after it, modelled with explicit state passing over the
notebook's variable environment. -/

/-- Status-carrying HTTP response object, the value `requests.post`
returns (`<Response [503]>` in the stored output). -/
structure PostResponse where
  status : Nat
deriving Repr, DecidableEq

/-- One outgoing HTTP POST request: target URL, basic-auth user name, and
JSON body. -/
structure PostRequest where
  postUrl : String
  authUser : String
  body : Json

/-- A notebook top-level variable value relevant to the census cell:
either ordinary (JSON-representable) data or a response object. -/
inductive PyVal where
  | json (j : Json)
  | resp (r : PostResponse)

/-- The notebook's top-level variable environment. -/
def Env := String → Option PyVal

/-- The literal `apikey` string of cell 44. -/
def apikey : String := "c4892baf28a2c18b2d3cd9ce9f68ebacecd2a970"

/-- The literal `request_url` string of cell 44. -/
def request_url : String := "http://citysdk.commerce.gov"

/-- The literal `request_obj` dict of cell 44, field order as written. -/
def request_obj : Json :=
  .obj [("zip", .str "21401"), ("state", .str "MD"), ("level", .str "state"),
        ("sublevel", .bool false), ("api", .str "acs5"), ("year", .num 2010),
        ("variables", .arr [.str "income", .str "population"])]

/-- Cell 44, run against a transport `post` that maps each issued request
to the response the server returns: the cell binds `apikey`,
`request_url` and `request_obj` to its literals, issues the POST built
from them, binds `response` to whatever came back, and returns the trace
of issued requests.  The source is straight-line, so the trace and the
final bindings are the same whatever the response (a 503 included). -/
def runCensusCell (post : PostRequest → PostResponse) (env : Env) :
    Env × List PostRequest :=
  let req : PostRequest := ⟨request_url, apikey, request_obj⟩
  let r := post req
  (fun x =>
    if x = "response" then some (.resp r)
    else if x = "request_obj" then some (.json request_obj)
    else if x = "request_url" then some (.json (.str request_url))
    else if x = "apikey" then some (.json (.str apikey))
    else env x,
   [req])

/-- Cell 45: the bare expression `response`, displayed raw. -/
def displayResponseCell (env : Env) : Option PyVal := env "response"

/-! Container semantics demonstrated by the data-types notebook. -/

/-- A Python tuple of strings (the demonstration values are one-character
strings). -/
structure PyTuple where
  items : List String
deriving Repr, DecidableEq

/-- `list(t)`: the tuple's items as a (mutable) list. -/
def listOfTuple (t : PyTuple) : List String := t.items

/-- `tuple(l)`: a tuple holding the list's items. -/
def tupleOfList (l : List String) : PyTuple := ⟨l⟩

/-- `xs.remove(v)`: delete the first occurrence of `v`, `ValueError` when
absent. -/
def listRemove : List String → String → Except String (List String)
  | [], _ => .error "ValueError"
  | y :: ys, v => if y = v then .ok ys else (listRemove ys v).map (fun r => y :: r)

/-- A notebook value that can stand on the left of an item assignment:
a list (mutable) or a tuple (immutable). -/
inductive SeqObj where
  | listV (xs : List String)
  | tupleV (xs : List String)
deriving Repr, DecidableEq

/-- `o[i] = v`: lists are updated in place; tuples do not support item
assignment and raise TypeError. -/
def setItem : SeqObj → Nat → String → Except String SeqObj
  | .listV xs, i, v =>
      if i < xs.length then .ok (.listV (xs.set i v)) else .error "IndexError"
  | .tupleV _, _, _ => .error "TypeError"

/-- The statement `name[i] = v` on a variable environment of sequence
objects: on success the binding is updated, on a raised error the
environment is returned unchanged together with the error kind. -/
def execItemAssign (env : String → Option SeqObj) (name : String) (i : Nat)
    (v : String) : (String → Option SeqObj) × Option String :=
  match env name with
  | some o =>
      match setItem o i v with
      | .ok o2 => ((fun x => if x = name then some o2 else env x), none)
      | .error e => (env, some e)
  | none => (env, some "NameError")

/-- A Python dict with string keys and values: an insertion-ordered
association list, as dicts preserve insertion order. -/
abbrev PyDict := List (String × String)

/-- `d[k] = v` (also the per-key step of `d.update(...)`): overwrite in
place when the key exists, append otherwise. -/
def setKey : PyDict → String → String → PyDict
  | [], k, v => [(k, v)]
  | (k2, v2) :: rest, k, v =>
      if k2 = k then (k2, v) :: rest else (k2, v2) :: setKey rest k v

/-- `d.update(other)`: set every key of `other` in order. -/
def dictUpdate (d : PyDict) (other : PyDict) : PyDict :=
  other.foldl (fun acc kv => setKey acc kv.1 kv.2) d

/-- Dict lookup `d[k]`. -/
def dictGet : PyDict → String → Option String
  | [], _ => none
  | (k2, v) :: rest, k => if k2 = k then some v else dictGet rest k

/-- The `antonyms` literal of cell 40. -/
def antonyms : PyDict := [("hot", "cold"), ("fast", "slow"), ("good", "bad")]

/-- The `synonyms` literal of cell 40. -/
def synonyms : PyDict := [("hot", "very warm"), ("fast", "quick"), ("good", "fine")]

/-- Cell 42: `newdict = \x7b\x7d; newdict.update(antonyms); newdict.update(synonyms)`. -/
def newdict : PyDict := dictUpdate (dictUpdate [] antonyms) synonyms

/-! A small statement language for single cells, with an explicit external
world (the network and the numpy random source), used to settle whether a
cell's output is a function of notebook state alone. -/

/-- The external world a cell runs against: the parsed body the network
returns for each requested URL (`requests.get` composed with
`json.loads`), and the grid the numpy random source produces for the one
`np.random.random((10,10))` call of the notebook. -/
structure World where
  http : String → Json
  rand : Json

/-- Expressions occurring in the modelled cells. -/
inductive CExpr where
  | lit (v : Json)
  | var (x : String)
  | httpGetJson (u : CExpr)
  | randomGrid
  | gridMin (e : CExpr)
  | gridMax (e : CExpr)

/-- Statements: top-level assignment and printing. -/
inductive Stmt where
  | assign (x : String) (e : CExpr)
  | printE (e : CExpr)

mutual
/-- All numeric leaves of a JSON value, row-major (`Z.min()`/`Z.max()`
range over these). -/
def jsonFlatten : Json → List Int
  | .num n => [n]
  | .arr xs => jsonFlattenList xs
  | _ => []

/-- Numeric leaves of a list of JSON values. -/
def jsonFlattenList : List Json → List Int
  | [] => []
  | j :: js => jsonFlatten j ++ jsonFlattenList js
end

/-- Minimum of a list of integers, `none` on the empty list. -/
def listMin : List Int → Option Int
  | [] => none
  | x :: xs => some (xs.foldl min x)

/-- Maximum of a list of integers, `none` on the empty list. -/
def listMax : List Int → Option Int
  | [] => none
  | x :: xs => some (xs.foldl max x)

/-- Expression evaluation against a world and an environment; `none`
stands for a raised exception. -/
def evalExpr (w : World) (env : String → Option Json) : CExpr → Option Json
  | .lit v => some v
  | .var x => env x
  | .httpGetJson u =>
      (evalExpr w env u).bind (fun j =>
        match j with
        | .str s => some (w.http s)
        | _ => none)
  | .randomGrid => some w.rand
  | .gridMin e =>
      (evalExpr w env e).bind (fun j => (listMin (jsonFlatten j)).map Json.num)
  | .gridMax e =>
      (evalExpr w env e).bind (fun j => (listMax (jsonFlatten j)).map Json.num)

/-- One statement on (environment, output printed so far). -/
def execStmt (w : World)
    (st : (String → Option Json) × List (Option Json)) :
    Stmt → (String → Option Json) × List (Option Json)
  | .assign x e => ((fun y => if y = x then evalExpr w st.1 e else st.1 y), st.2)
  | .printE e => (st.1, st.2 ++ [evalExpr w st.1 e])

/-- Run a cell from an environment with empty output. -/
def runCell (w : World) (prog : List Stmt) (env : String → Option Json) :
    (String → Option Json) × List (Option Json) :=
  prog.foldl (execStmt w) (env, [])

/-- The empty notebook environment. -/
def emptyEnv : String → Option Json := fun _ => none

/-- Cell 113 of the data-types notebook in the statement language:
`Z = np.random.random((10,10)); Zmin, Zmax = Z.min(), Z.max(); print(Zmin, Zmax)`
(the one `print` shows the two values; we record both printed values in
order). -/
def nb02c113prog : List Stmt :=
  [.assign "Z" .randomGrid,
   .assign "Zmin" (.gridMin (.var "Z")),
   .assign "Zmax" (.gridMax (.var "Z")),
   .printE (.var "Zmin"),
   .printE (.var "Zmax")]

/-- A 10 × 10 grid holding `k` everywhere, one possible value of the
random source. -/
def gridOf (k : Int) : Json :=
  .arr (List.replicate 10 (.arr (List.replicate 10 (.num k))))

/-- A world whose random grid is all zeros. -/
def worldZero : World := ⟨fun _ => Json.null, gridOf 0⟩

/-- A world whose random grid is all ones. -/
def worldOne : World := ⟨fun _ => Json.null, gridOf 1⟩

/-- Does an expression read the external world (network or random
source)? -/
def pureExpr : CExpr → Bool
  | .lit _ => true
  | .var _ => true
  | .httpGetJson _ => false
  | .randomGrid => false
  | .gridMin e => pureExpr e
  | .gridMax e => pureExpr e

/-- A statement is world-free when its expression is. -/
def pureStmt : Stmt → Bool
  | .assign _ e => pureExpr e
  | .printE e => pureExpr e

/-- A cell is world-free when all its statements are. -/
def pureCell (prog : List Stmt) : Bool := prog.all pureStmt

/-- Cell 48 of the geocoding notebook: `data['Block']['FIPS']`. -/
def blockFips (data : Json) : Option Json :=
  (data.lookupKey "Block").bind (fun b => b.lookupKey "FIPS")

/-- The tuple `d = ('a', 'b', 'c')` of cell 3 of the data-types notebook. -/
def d : PyTuple := ⟨["a", "b", "c"]⟩

/-- The environment of the data-types notebook right after cell 3: only
`d` is bound, to the tuple `('a', 'b', 'c')`. -/
def tupleDemoEnv : String → Option SeqObj :=
  fun x => if x = "d" then some (.tupleV ["a", "b", "c"]) else none

/-! Helper lemmas shared by the claim theorems. -/

/-- The extraction loop of cell 5 is exactly a monadic map of
`geomCoords` over the feature list, in list order. -/
theorem printCoordsLoop_eq_mapM (rs : List Json) :
    printCoordsLoop rs = rs.mapM geomCoords := by
  induction rs with
  | nil => rfl
  | cons r rest ih =>
      rw [List.mapM_cons]
      simp [printCoordsLoop, ih]

/-- The extraction loop raises (returns `none`) as soon as any feature in
the list lacks one of the expected keys. -/
theorem printCoordsLoop_none_of_mem (rs : List Json) (r : Json)
    (hmem : r ∈ rs) (hr : geomCoords r = none) :
    printCoordsLoop rs = none := by
  induction rs with
  | nil => cases hmem
  | cons s rest ih =>
      cases hmem with
      | head => simp [printCoordsLoop, hr]
      | tail _ hmem2 =>
          simp [printCoordsLoop, ih hmem2]

/-- World-free expressions evaluate identically in any two worlds. -/
theorem evalExpr_pure (w1 w2 : World) (env : String → Option Json)
    (e : CExpr) (h : pureExpr e = true) :
    evalExpr w1 env e = evalExpr w2 env e := by
  induction e with
  | lit v => rfl
  | var x => rfl
  | httpGetJson u ih => simp [pureExpr] at h
  | randomGrid => simp [pureExpr] at h
  | gridMin e ih => simp only [evalExpr, ih h]
  | gridMax e ih => simp only [evalExpr, ih h]

/-- World-free statements act identically in any two worlds. -/
theorem execStmt_pure (w1 w2 : World)
    (st : (String → Option Json) × List (Option Json)) (s : Stmt)
    (h : pureStmt s = true) :
    execStmt w1 st s = execStmt w2 st s := by
  cases s with
  | assign x e => simp only [execStmt, evalExpr_pure w1 w2 st.1 e h]
  | printE e => simp only [execStmt, evalExpr_pure w1 w2 st.1 e h]

/-- Folding a world-free cell over any start state is world-independent. -/
theorem foldl_execStmt_pure (w1 w2 : World) (prog : List Stmt) :
    ∀ st : (String → Option Json) × List (Option Json),
      prog.all pureStmt = true →
      prog.foldl (execStmt w1) st = prog.foldl (execStmt w2) st := by
  induction prog with
  | nil => intro st _; rfl
  | cons s rest ih =>
      intro st h
      rw [List.all_cons, Bool.and_eq_true] at h
      rw [List.foldl_cons, List.foldl_cons, execStmt_pure w1 w2 st s h.1,
          ih _ h.2]

/-! Claim theorems. -/

/-- Claim C8: item assignment on a tuple raises a TypeError and leaves the
tuple binding unchanged: for every environment binding `name` to a tuple
`t`, every index `i` and value `v`, executing `name[i] = v` returns the
TypeError and the very same environment, so `name` still holds `t`; in the
demonstration, `d = ('a', 'b', 'c')` and `d[2] = 'z'` behave exactly so. -/
theorem tuple_item_assignment_rejected (env : String → Option SeqObj)
    (name : String) (t : List String) (i : Nat) (v : String)
    (h : env name = some (.tupleV t)) :
    execItemAssign env name i v = (env, some "TypeError") := by
  simp [execItemAssign, h, setItem]

/-- Witness for claim C8: the demonstrated cell `d[2] = 'z'` on the
environment where `d = ('a', 'b', 'c')`: the TypeError is raised and `d`
still holds `('a', 'b', 'c')` afterwards. -/
theorem tuple_item_assignment_rejected_witness :
    execItemAssign tupleDemoEnv "d" 2 "z" = (tupleDemoEnv, some "TypeError")
  ∧ (execItemAssign tupleDemoEnv "d" 2 "z").1 "d" = some (.tupleV ["a", "b", "c"]) := by
  refine ⟨tuple_item_assignment_rejected tupleDemoEnv "d" ["a", "b", "c"] 2 "z" rfl, ?_⟩
  rw [tuple_item_assignment_rejected tupleDemoEnv "d" ["a", "b", "c"] 2 "z" rfl]
  rfl

/-- Claim C9: merging by `update` is last-writer-wins on keys: starting
from the empty dict and updating with `antonyms` then `synonyms`, the
result `newdict` has exactly 3 entries, its keys are exactly the shared
keys `hot`, `fast`, `good`, and every key maps to the value the second
(later) dict `synonyms` gives it — indeed the merged dict equals
`synonyms` entry for entry. -/
theorem dict_update_last_writer_wins :
    newdict.length = 3
  ∧ newdict.map Prod.fst = ["hot", "fast", "good"]
  ∧ newdict.map Prod.fst = synonyms.map Prod.fst
  ∧ newdict = [("hot", "very warm"), ("fast", "quick"), ("good", "fine")]
  ∧ ∀ k, dictGet newdict k = dictGet synonyms k := by
  refine ⟨by decide, by decide, by decide, by decide, ?_⟩
  intro k
  rw [show newdict = synonyms by decide]

/-- Claim C10: converting a tuple to a list and back is the identity on
every tuple; in the demonstration, `e = list(d)` with `e.remove('c')`
yields `['a', 'b']`, and `f = tuple(e)` is exactly `('a', 'b')`. -/
theorem tuple_list_roundtrip :
    (∀ t : PyTuple, tupleOfList (listOfTuple t) = t)
  ∧ listRemove (listOfTuple d) "c" = .ok ["a", "b"]
  ∧ tupleOfList ["a", "b"] = ⟨["a", "b"]⟩ := by
  refine ⟨fun t => rfl, rfl, rfl⟩

/-- Claim C1: the census cell issues exactly one POST, built from the
literal `request_url`, `apikey` and `request_obj`; whatever response the
transport returns (the observed 503 included) the cell binds `apikey`,
`request_url` and `request_obj` to its literals and `response` to the raw
returned object, the following cell displays that raw object, and every
other binding of the environment is left exactly as it was. -/
theorem census_cell_single_post_and_frame (post : PostRequest → PostResponse)
    (env : Env) :
    (runCensusCell post env).2 = [⟨request_url, apikey, request_obj⟩]
  ∧ (runCensusCell post env).1 "apikey" = some (.json (.str apikey))
  ∧ (runCensusCell post env).1 "request_url" = some (.json (.str request_url))
  ∧ (runCensusCell post env).1 "request_obj" = some (.json request_obj)
  ∧ (runCensusCell post env).1 "response"
      = some (.resp (post ⟨request_url, apikey, request_obj⟩))
  ∧ displayResponseCell (runCensusCell post env).1
      = some (.resp (post ⟨request_url, apikey, request_obj⟩))
  ∧ ∀ x, x ≠ "apikey" → x ≠ "request_url" → x ≠ "request_obj" →
      x ≠ "response" → (runCensusCell post env).1 x = env x := by
  refine ⟨rfl, rfl, rfl, rfl, rfl, rfl, ?_⟩
  intro x h1 h2 h3 h4
  simp [runCensusCell, h1, h2, h3, h4]

/-- Witness for claim C1: against a transport that always answers 503 and
an empty environment, the cell issues the one literal POST, `response`
holds the raw 503 object, the display cell shows it, and an unrelated name
stays unbound. -/
theorem census_cell_single_post_and_frame_witness :
    (runCensusCell (fun _ => ⟨503⟩) (fun _ => none)).2
      = [⟨request_url, apikey, request_obj⟩]
  ∧ displayResponseCell (runCensusCell (fun _ => ⟨503⟩) (fun _ => none)).1
      = some (.resp ⟨503⟩)
  ∧ (runCensusCell (fun _ => ⟨503⟩) (fun _ => none)).1 "zipcode" = none := by
  refine ⟨(census_cell_single_post_and_frame (fun _ => ⟨503⟩) (fun _ => none)).1,
    (census_cell_single_post_and_frame (fun _ => ⟨503⟩) (fun _ => none)).2.2.2.2.2.1,
    (census_cell_single_post_and_frame (fun _ => ⟨503⟩) (fun _ => none)).2.2.2.2.2.2
      "zipcode" (by decide) (by decide) (by decide) (by decide)⟩

/-- Counterexample to claim C2: it is not true that no cell modifies state
outside the notebook's top-level bindings — the token cell of the
geocoding notebook mutates the process-wide environment map
(`os.environ['MAPBOX_ACCESS_TOKEN'] = ...`). -/
theorem external_mutation_exists :
    ¬ (∀ c ∈ allCells, ∀ e ∈ c, mutatesExternalState e = false) := by
  intro h
  exact absurd (h nb13c12 (by decide) (.setEnv "MAPBOX_ACCESS_TOKEN") (by decide))
    (by decide)

/-- Claim C2 as amended: across every code cell of both notebooks, the only
effect that mutates state outside the notebook's own top-level variable
bindings is the single `os.environ['MAPBOX_ACCESS_TOKEN']` assignment, and
the cell performing it is the token cell `nb13c12`. -/
theorem only_external_mutation_is_token_env :
    ∀ c ∈ allCells, ∀ e ∈ c, mutatesExternalState e = true →
      e = .setEnv "MAPBOX_ACCESS_TOKEN" ∧ c = nb13c12 := by
  decide

/-- Witness for amended claim C2: the token cell is in the repository, its
environment mutation satisfies the hypotheses, and the conclusion names
it. -/
theorem only_external_mutation_is_token_env_witness :
    Effect.setEnv "MAPBOX_ACCESS_TOKEN" = .setEnv "MAPBOX_ACCESS_TOKEN"
  ∧ nb13c12 = nb13c12 :=
  only_external_mutation_is_token_env nb13c12 (by decide)
    (.setEnv "MAPBOX_ACCESS_TOKEN") (by decide) (by decide)

/-- Claim C5: no cell of either notebook ever issues more than one HTTP
request per evaluation; the demonstrated GET cell and the census POST cell
issue exactly one each; and the census cell's request trace has length one
whatever response (whatever status) the transport returns, so no retry or
any follow-up request step ever runs. -/
theorem at_most_one_request_per_cell :
    (∀ c ∈ allCells, requestCount c ≤ 1)
  ∧ requestCount nb13c3 = 1
  ∧ requestCount nb13c44 = 1
  ∧ ∀ (post : PostRequest → PostResponse) (env : Env),
      ((runCensusCell post env).2).length = 1 := by
  exact ⟨by decide, by decide, by decide, fun post env => rfl⟩

/-- Witness for claim C5: the forward-geocoding GET cell is a cell of the
repository and issues at most one request. -/
theorem at_most_one_request_per_cell_witness :
    requestCount nb13c3 ≤ 1 :=
  at_most_one_request_per_cell.1 nb13c3 (by decide)

/-- Claim C7: execution is single-threaded, synchronous and cell-by-cell:
no effect of any code cell of either notebook starts a thread or cancels
an in-flight operation (each cell being a totally ordered effect list, an
HTTP request completes before the next recorded effect). -/
theorem no_thread_no_cancellation :
    ∀ c ∈ allCells, ∀ e ∈ c, e ≠ .spawnThread ∧ e ≠ .cancel := by
  decide

/-- Witness for claim C7: the forward-geocoding request effect itself is
neither a thread spawn nor a cancellation. -/
theorem no_thread_no_cancellation_witness :
    Effect.request "GET" ≠ .spawnThread ∧ Effect.request "GET" ≠ .cancel :=
  no_thread_no_cancellation nb13c3 (by decide) (.request "GET") (by decide)

set_option maxRecDepth 8000 in
/-- Counterexample to claim C3: the prepared URL is not the endpoint
followed by the literal address and `.json` with the two query parameters
appended — the space of `Wurster Hall` is percent-quoted by the prepared
request, so the two strings differ. -/
theorem url_not_plain_concat :
    url ≠ endpoint ++ address ++ ".json" ++ "?limit=1&access_token=" ++ mapboxToken := by
  decide

set_option maxRecDepth 8000 in
/-- Claim C3 as amended: the prepared URL equals the endpoint followed by
the URL-encoded address (`Wurster%20Hall`) and `.json`, with exactly the
query parameters `limit=1` and `access_token` appended in that order; the
cell's trace issues a single GET and then binds `response`, `results` and
the `json.loads` result `data`; and the extraction loop prints, for each
element of `data['features']` in list order, exactly the value at
`r['geometry']['coordinates']`. -/
theorem prepared_url_encoded_and_extraction :
    url = endpoint ++ "Wurster%20Hall" ++ ".json" ++ "?limit=1&access_token=" ++ mapboxToken
  ∧ nb13c3 = [.request "GET", .bindVar "response", .bindVar "results",
              .bindVar "data", .print]
  ∧ requestCount nb13c3 = 1
  ∧ (∀ (rest : List (String × Json)) (rs : List Json),
      cell5Output (Json.obj (("features", Json.arr rs) :: rest)) = printCoordsLoop rs)
  ∧ ∀ rs : List Json, printCoordsLoop rs = rs.mapM geomCoords := by
  refine ⟨by decide, by decide, by decide, fun rest rs => rfl, printCoordsLoop_eq_mapM⟩

set_option maxRecDepth 40000 in
/-- Counterexample to claim C4: cell output is not a function of the
notebook state alone — the random-array cell, run twice from the very same
(empty) top-level bindings against two possible states of the numpy random
source, prints different values. -/
theorem random_cell_output_world_dependent :
    ¬ ∀ w1 w2 : World,
      (runCell w1 nb02c113prog emptyEnv).2 = (runCell w2 nb02c113prog emptyEnv).2 := by
  intro h
  have h2 := h worldZero worldOne
  rw [show (runCell worldZero nb02c113prog emptyEnv).2
        = [some (Json.num 0), some (Json.num 0)] from rfl,
      show (runCell worldOne nb02c113prog emptyEnv).2
        = [some (Json.num 1), some (Json.num 1)] from rfl] at h2
  simp at h2

/-- Claim C4 as amended: a cell's output is a function of its inputs, the
ambient notebook state, and the external world it consumes (live network
responses and the random source); for the cells that consume no world —
no request and no random draw in any of their statements — two executions
from equal top-level bindings produce equal environments and equal
output whatever the two worlds are. -/
theorem world_free_cells_deterministic (prog : List Stmt)
    (h : pureCell prog = true) (env : String → Option Json) (w1 w2 : World) :
    runCell w1 prog env = runCell w2 prog env :=
  foldl_execStmt_pure w1 w2 prog (env, []) h

/-- Witness for amended claim C4: a world-free assignment cell runs
identically under the all-zeros world and the all-ones world. -/
theorem world_free_cells_deterministic_witness :
    runCell worldZero [Stmt.assign "x" (.lit (Json.num 1))] emptyEnv
  = runCell worldOne [Stmt.assign "x" (.lit (Json.num 1))] emptyEnv :=
  world_free_cells_deterministic [Stmt.assign "x" (.lit (Json.num 1))] rfl
    emptyEnv worldZero worldOne

/-- Claim C6: no extraction from a parsed response is preceded by any
repository-defined validation — each is a bare subscript chain whose error
branch (`none`, the raised `KeyError`) is reached on every response value
lacking an expected key: a body without `Block` or with a `Block` lacking
`FIPS` fails `data['Block']['FIPS']`, a body without a `features` list
fails the coordinate cell, and a feature list any member of which lacks
`geometry`/`coordinates` fails the extraction loop. -/
theorem extraction_unvalidated_error_branch :
    (∀ data : Json, data.lookupKey "Block" = none → blockFips data = none)
  ∧ (∀ data b : Json, data.lookupKey "Block" = some b →
      b.lookupKey "FIPS" = none → blockFips data = none)
  ∧ (∀ data : Json, data.lookupKey "features" = none → cell5Output data = none)
  ∧ ∀ (rs : List Json) (r : Json), r ∈ rs → geomCoords r = none →
      printCoordsLoop rs = none := by
  refine ⟨?_, ?_, ?_, printCoordsLoop_none_of_mem⟩
  · intro data h
    simp [blockFips, h]
  · intro data b h1 h2
    simp [blockFips, h1, h2]
  · intro data h
    simp [cell5Output, h]

/-- Witness for claim C6: the empty JSON object reaches the error branch
of the FIPS extraction, and a feature list whose member is the empty
object fails the coordinate loop. -/
theorem extraction_unvalidated_error_branch_witness :
    blockFips (Json.obj []) = none ∧ printCoordsLoop [Json.obj []] = none :=
  ⟨extraction_unvalidated_error_branch.1 (Json.obj []) rfl,
   extraction_unvalidated_error_branch.2.2.2 [Json.obj []] (Json.obj [])
     (List.mem_singleton.mpr rfl) rfl⟩

end Notebooks
